import Mathlib

/-!
# Verification of the octopus processing-session orchestrator

A shallow embedding of `src/octopus/pipeline.py` (the `ProcessingSession`
class and the worker-side `process_batch` function), together with proofs
about the session counters, the deduplication discipline, batch-id
assignment, lifecycle control and error handling.

Modelling conventions:

* The mutable `ProcessingSession` object becomes the `SessionState`
  structure; every method that mutates the session becomes a pure state
  transformer.
* Python integers are `Int` (counters may be decremented below zero by the
  code, nothing truncates), `next_batch_id` is `Nat`.
* The Python `set` `files_done` is a duplicate-free `List String` to which
  elements are appended only after a membership test, mirroring the
  membership guards in the source.
* Observable side effects are recorded in ghost fields of the state:
  `errLog` (lines written by `errprint`), `logErrors` (lines given to
  `logger.error`), `cancelSweeps` / `loopStopCalls` (the unconditional
  `task.cancel()` sweep and `loop.stop()` call in `stop`), and
  `dispatched` (the batches handed to `loop.create_task`, in order).
* `duplicatesCanceled` is a ghost counter incremented at the two sites
  where a duplicate occurrence is dropped (the `num_canceled` branch of
  `flush_jobstack` and the `else` branch of the merge loop of
  `run_process_batch`); it exists only to state the spec's counter
  equation.
* External collaborators (the `SignalAnalyzer`, the filesystem, the
  barcode predictor, the writers) are oracles passed as functions; a
  Python exception raised by a collaborator is an `Except.error` carrying
  the exception type name, message and formatted traceback lines.
-/

/-- Mirrors `FAST5_SUFFIX = '.fast5'` from `pipeline.py`. -/
def FAST5_SUFFIX : String := ".fast5"

/-- The per-file result dictionary produced by the worker
(`PerFileResult` in the spec).  `readId` is `none` when the dictionary
has no `read_id` key — in the source the `disappeared` dictionary
`{'filename': f5file, 'status': 'disappeared'}` has no such key. -/
structure PerFileResult where
  filename : String
  status : String
  readId : Option String := none
  label : Option String := none
  deriving Repr, DecidableEq

/-- A Python exception raised inside the worker: its type name, its
`str()` rendering, and the lines `traceback.print_exc` would produce. -/
structure WorkerError where
  typeName : String
  message : String
  tracebackLines : List String
  deriving Repr, DecidableEq

/-- The value returned by the worker for one batch: either the list of
per-file results, or the fatal-error sentinel
`(-1, message, traceback)` built in the `except` clause of
`process_batch`.  In the source the sentinel is recognized by
`results[0] == -1`, which can never hold of a genuine result list (its
entries are dictionaries); the tag of this inductive models exactly
that discrimination. -/
inductive BatchOutcome where
  | results (rs : List PerFileResult)
  | fatal (message : String) (tracebackLines : List String)
  deriving Repr, DecidableEq

/-- One iteration of the `for f5file in reads` loop in `process_batch`:
`os.path.exists` is the oracle `ex`; an existing file goes through
`process_file`/`analyzer.process` (the oracle `analyzer`, which may
raise); a missing file yields the `disappeared` dictionary without
touching the analyzer. -/
def worker_process_file (ex : String → Bool)
    (analyzer : String → Except WorkerError PerFileResult)
    (f5file : String) : Except WorkerError PerFileResult :=
  if ex f5file then analyzer f5file
  else Except.ok { filename := f5file, status := "disappeared" }

/-- The `if config['barcoding']` annotation loop of `process_batch`:
`res['read_id']` raises `KeyError` when the dictionary has no
`read_id` key (the traceback text is abstracted to one fixed line);
otherwise entries whose read id is in `barcode_assg` get their
`label` set. -/
def annotate_barcodes (barcodeAssg : String → Option String) :
    List PerFileResult → Except WorkerError (List PerFileResult) :=
  List.mapM (fun res =>
    match res.readId with
    | none => Except.error
        { typeName := "KeyError", message := "read_id",
          tracebackLines := ["KeyError: read_id"] }
    | some rid => Except.ok
        (match barcodeAssg rid with
         | some lbl => { res with label := some lbl }
         | none => res))

/-- The body of the `try` block of `process_batch`: process every file,
then run the barcode annotation when the feature is enabled.  The
scoped `SignalAnalyzer` context is absorbed into the `analyzer`
oracle. -/
def worker_batch_body (barcoding : Bool) (ex : String → Bool)
    (analyzer : String → Except WorkerError PerFileResult)
    (barcodeAssg : String → Option String) (reads : List String) :
    Except WorkerError (List PerFileResult) := do
  let results ← reads.mapM (worker_process_file ex analyzer)
  if barcoding then annotate_barcodes barcodeAssg results else pure results

/-- Model of `process_batch` from `pipeline.py`: any exception escaping the `try`
body is caught at the batch boundary and converted into the fatal-error
sentinel carrying `'Unhandled exception {type}: {message}'` and the
traceback text. -/
def process_batch (barcoding : Bool) (ex : String → Bool)
    (analyzer : String → Except WorkerError PerFileResult)
    (barcodeAssg : String → Option String) (reads : List String) :
    BatchOutcome :=
  match worker_batch_body barcoding ex analyzer barcodeAssg reads with
  | Except.ok results => BatchOutcome.results results
  | Except.error e => BatchOutcome.fatal
      ("Unhandled exception " ++ e.typeName ++ ": " ++ e.message)
      e.tracebackLines

/-- The orchestrator session state (`ProcessingSession.__init__`), with
the ghost observation fields described in the module docstring. -/
structure SessionState where
  running : Bool
  scanFinished : Bool
  readsQueued : Int
  readsFound : Int
  readsProcessed : Int
  nextBatchId : Nat
  filesDone : List String
  activeBatches : Int
  jobstack : List String
  forcedFlushCounter : Nat
  duplicatesCanceled : Int
  dispatched : List (Nat × List String)
  errLog : List String
  logErrors : List String
  cancelSweeps : Nat
  loopStopCalls : Nat
  deriving Repr, DecidableEq

/-- The state built by `ProcessingSession.__init__`. -/
def initState : SessionState :=
  { running := true, scanFinished := false, readsQueued := 0,
    readsFound := 0, readsProcessed := 0, nextBatchId := 0,
    filesDone := [], activeBatches := 0, jobstack := [],
    forcedFlushCounter := 0, duplicatesCanceled := 0, dispatched := [],
    errLog := [], logErrors := [], cancelSweeps := 0, loopStopCalls := 0 }

/-- The message `stop` prints through `errprint` when it flips
`running` off (leading newline dropped). -/
def terminationNotice : String :=
  "Termination in process. Please wait for a moment."

/-- Model of `ProcessingSession.stop`: the notice and the `running = False`
assignment are guarded by `if self.running`, but the cancellation sweep
over `asyncio.Task.all_tasks()` and the `loop.stop()` call run
unconditionally on every invocation. -/
def stop (s : SessionState) : SessionState :=
  let s1 := if s.running
    then { s with errLog := s.errLog ++ [terminationNotice], running := false }
    else s
  { s1 with cancelSweeps := s1.cancelSweeps + 1,
            loopStopCalls := s1.loopStopCalls + 1 }

/-- Model of `ProcessingSession.errx`: print the message and stop, but only when
the session is still running. -/
def errx (message : String) (s : SessionState) : SessionState :=
  if s.running then stop { s with errLog := s.errLog ++ [message] } else s

/-- Model of `ProcessingSession.flush_jobstack`: guarded on `running` and a
nonempty stack; takes the next batch id, filters the stack against
`files_done` (decrementing both `reads_queued` and `reads_found` by the
number of filtered-out entries), clears the stack and, when anything
is left, creates the processing task for the batch. -/
def flush_jobstack (s : SessionState) : SessionState :=
  if s.running = true ∧ s.jobstack ≠ [] then
    let batchId := s.nextBatchId
    let s1 := { s with nextBatchId := s.nextBatchId + 1 }
    let filesToSubmit := s1.jobstack.filter (fun f => decide (f ∉ s1.filesDone))
    let numCanceled : Nat := s1.jobstack.length - filesToSubmit.length
    let s2 := if numCanceled ≠ 0 then
        { s1 with readsQueued := s1.readsQueued - numCanceled,
                  readsFound := s1.readsFound - numCanceled,
                  duplicatesCanceled := s1.duplicatesCanceled + numCanceled }
      else s1
    let s3 := { s2 with jobstack := [] }
    if filesToSubmit ≠ [] then
      { s3 with dispatched := s3.dispatched ++ [(batchId, filesToSubmit)] }
    else s3
  else s

/-- The first three statements of `queue_processing`: push the path and
bump both counters. -/
def jobstack_push (s : SessionState) (filepath : String) : SessionState :=
  { s with jobstack := s.jobstack ++ [filepath],
           readsQueued := s.readsQueued + 1,
           readsFound := s.readsFound + 1 }

/-- Model of `ProcessingSession.queue_processing`: push the path, bump both
counters, and flush once the stack has reached
`config['batch_chunk_size']`. -/
def queue_processing (chunkSize : Nat) (s : SessionState)
    (filepath : String) : SessionState :=
  let s1 := jobstack_push s filepath
  if chunkSize ≤ s1.jobstack.length then flush_jobstack s1 else s1

/-- Outcome of the writer fan-out stage of `run_process_batch` for one
batch: all awaited writer calls return (`ok`), one of them raises a
Python exception (`raises`), or the await is interrupted by
`CancelledError` / `BrokenProcessPool` (`cancelled`). -/
inductive WriterOutcome where
  | ok
  | raises (message : String)
  | cancelled
  deriving Repr, DecidableEq

/-- One iteration of the duplicate-removal loop of
`run_process_batch`: a result whose filename is already in `files_done`
is dropped, decrementing `reads_queued` and `reads_found` (and bumping
the ghost duplicate counter); otherwise the filename is recorded in
`files_done` when the status is `okay`, and the result joins
`nd_results`. -/
def dedup_step (acc : SessionState × List PerFileResult)
    (result : PerFileResult) : SessionState × List PerFileResult :=
  let s := acc.1
  if result.filename ∈ s.filesDone then
    ({ s with readsQueued := s.readsQueued - 1,
              readsFound := s.readsFound - 1,
              duplicatesCanceled := s.duplicatesCanceled + 1 }, acc.2)
  else
    let s1 := if result.status = "okay"
      then { s with filesDone := s.filesDone ++ [result.filename] }
      else s
    (s1, acc.2 ++ [result])

/-- The orchestrator side of one batch (`run_process_batch`), from the
`self.active_batches += 1` line to the trailing counter update,
with the already-awaited worker outcome and the writer-stage outcome
supplied as arguments.  The start-delay `CancelledError` path and a
cancellation of the compute await leave the state untouched and are not
modelled as separate steps.

* a fatal sentinel is logged (`logger.error` on the message and on each
  traceback line) and aborts the session through `errx`;
* otherwise the duplicate-removal loop runs; when `nd_results` is
  nonempty the writers run: an exception there is logged and aborts the
  session through `errx`, a cancellation just returns — in both cases
  the trailing `reads_processed` / `reads_queued` update is skipped;
* the `finally` clause decrements `active_batches` on every path. -/
def run_process_batch_step (w : WriterOutcome) (s : SessionState)
    (outcome : BatchOutcome) : SessionState :=
  let s0 := { s with activeBatches := s.activeBatches + 1 }
  match outcome with
  | BatchOutcome.fatal msg tbLines =>
      let s1 := { s0 with logErrors := s0.logErrors ++ [msg] ++ tbLines }
      let s2 := errx ("ERROR: " ++ msg) s1
      { s2 with activeBatches := s2.activeBatches - 1 }
  | BatchOutcome.results results =>
      let p := results.foldl dedup_step (s0, [])
      let s1 := p.1
      let nd := p.2
      if nd = [] then
      -- writers are skipped entirely; the trailing update adds zero
        let s2 := { s1 with activeBatches := s1.activeBatches - 1 }
        { s2 with readsProcessed := s2.readsProcessed + nd.length,
                  readsQueued := s2.readsQueued - nd.length }
      else
        match w with
        | WriterOutcome.ok =>
            let s2 := { s1 with activeBatches := s1.activeBatches - 1 }
            { s2 with readsProcessed := s2.readsProcessed + nd.length,
                      readsQueued := s2.readsQueued - nd.length }
        | WriterOutcome.raises m =>
            let s2 := { s1 with
              logErrors := s1.logErrors ++ ["Unhandled error during processing reads"] }
            let s3 := errx ("ERROR: Unhandled error " ++ m) s2
            { s3 with activeBatches := s3.activeBatches - 1 }
        | WriterOutcome.cancelled =>
            { s1 with activeBatches := s1.activeBatches - 1 }

/-- The function `os.path.commonprefix` on two strings, by character-list recursion. -/
def commonPrefAux : List Char → List Char → List Char
  | a :: as, b :: bs => if a = b then a :: commonPrefAux as bs else []
  | _, _ => []

/-- Model of `os.path.commonprefix([a, b])`. -/
def commonPref (a b : String) : String :=
  String.mk (commonPrefAux a.data b.data)

/-- Python `str.endswith`, by character-list recursion (so that it
evaluates inside the kernel). -/
def str_endsWith (s suffix : String) : Bool :=
  suffix.data.isSuffixOf s.data

/-- Python `str.startswith`, by character-list recursion. -/
def str_startsWith (s pre : String) : Bool :=
  pre.data.isPrefixOf s.data

/-- Python `str.lower` (ASCII range, which covers the paths handled
here). -/
def str_toLower (s : String) : String :=
  String.mk (s.data.map Char.toLower)

/-- Model of `os.path.join(a, b)` for the shapes arising here: an absolute `b`
wins; joining onto the empty string or onto a string already ending in
the separator inserts nothing. -/
def ospath_join (a b : String) : String :=
  if str_startsWith b "/" then b
  else if a = "" then b
  else if str_endsWith a "/" then a ++ b
  else a ++ "/" ++ b

/-- A live-watch event as consumed by `live_monitor_inputs`:
`isDir` models `'IN_ISDIR' in type_names`, `maskMatch` models
`header.mask & watch_flags`, `path` is the (absolute) directory of the
event and `filename` the entry name. -/
structure WatchEvent where
  isDir : Bool
  maskMatch : Bool
  path : String
  filename : String
  deriving Repr, DecidableEq

/-- Handling of one event by the loop body of
`live_monitor_inputs` (`topdir` is already normalized to end in `/`):
directory events and mask/suffix mismatches are skipped; an event whose
path does not extend the watched root is reported with `errprint` and
dropped; otherwise the path relative to the root is enqueued — resetting
the forced-flush watchdog counter first — unless it is already in
`files_done`. -/
def live_monitor_step (chunkSize : Nat) (topdir : String)
    (s : SessionState) (ev : WatchEvent) : SessionState :=
  if ev.isDir then s
  else if ev.maskMatch && str_endsWith (str_toLower ev.filename) FAST5_SUFFIX then
    let common := commonPref topdir ev.path
    if common ≠ topdir then
      { s with errLog := s.errLog ++
          ["ERROR: Change of " ++ ev.path ++ " detected, which is outside "
            ++ topdir ++ "."] }
    else
      let relpath := ospath_join (ev.path.drop common.length) ev.filename
      if relpath ∈ s.filesDone then s
      else queue_processing chunkSize
        { s with forcedFlushCounter := 0 } relpath
  else s

/-- End of the top-level call of `scan_dir_recursive`: one final flush,
then `scan_finished = True`. -/
def scan_finish_step (s : SessionState) : SessionState :=
  { flush_jobstack s with scanFinished := true }

/-- One heartbeat of `monitor_progresses_live` before the sleep: the
forced-flush watchdog counter advances while anything is queued. -/
def live_heartbeat_tick (s : SessionState) : SessionState :=
  if 0 < s.readsQueued
  then { s with forcedFlushCounter := s.forcedFlushCounter + 1 }
  else s

/-- The post-sleep check of `monitor_progresses_live`: once the watchdog
counter exceeds the derived threshold while work is queued, reset it and
force a flush. -/
def forced_flush_check (threshold : Nat) (s : SessionState) : SessionState :=
  if 0 < s.readsQueued ∧ threshold < s.forcedFlushCounter then
    flush_jobstack { s with forcedFlushCounter := 0 }
  else s

/-- What `ProcessingSession.run` does after the drain loop: `finalized`
records whether `finalize_results()` ran, `ret` whether the
summary-printing callback (`finalsummary_tracker.print_results`) or the
implicit `None` is returned. -/
inductive RunReturn where
  | summaryCallback
  | noResult
  deriving Repr, DecidableEq

/-- Result of the epilogue of `ProcessingSession.run`. -/
structure RunEpilogue where
  finalized : Bool
  ret : RunReturn
  deriving Repr, DecidableEq

/-- The epilogue of `ProcessingSession.run` (the
`if not config['quiet'] and sess.scan_finished:` block): finalization
and the summary callback are produced only when the session is not
quiet, the scan finished, and the found and processed counters agree;
every other path falls off the function, returning `None`. -/
def run_epilogue (quiet : Bool) (s : SessionState) : RunEpilogue :=
  if quiet = false ∧ s.scanFinished = true then
    if s.readsFound = s.readsProcessed then
      { finalized := true, ret := RunReturn.summaryCallback }
    else
      { finalized := false, ret := RunReturn.noResult }
  else { finalized := false, ret := RunReturn.noResult }

/-- The configuration fields of `config` read by the modelled code. -/
structure Config where
  batchChunkSize : Nat
  forcedFlushThreshold : Nat
  topdir : String
  quiet : Bool
  deriving Repr, DecidableEq

/-- The session-mutating transitions of the orchestrator: queueing a
discovered path (scanner or watcher), a flush, the settling of one
batch, a `stop` (signal handler), an `errx` (scan failure), one watch
event, the end-of-scan step, and the live-monitor heartbeat and
forced-flush checks.  These are the only places the source mutates the
session. -/
inductive Step (cfg : Config) : SessionState → SessionState → Prop
  | queue (s : SessionState) (filepath : String) :
      Step cfg s (queue_processing cfg.batchChunkSize s filepath)
  | flush (s : SessionState) :
      Step cfg s (flush_jobstack s)
  | settle (s : SessionState) (w : WriterOutcome) (outcome : BatchOutcome) :
      Step cfg s (run_process_batch_step w s outcome)
  | stopStep (s : SessionState) :
      Step cfg s (stop s)
  | errxStep (s : SessionState) (message : String) :
      Step cfg s (errx message s)
  | watch (s : SessionState) (ev : WatchEvent) :
      Step cfg s (live_monitor_step cfg.batchChunkSize cfg.topdir s ev)
  | scanFinish (s : SessionState) :
      Step cfg s (scan_finish_step s)
  | heartbeat (s : SessionState) :
      Step cfg s (live_heartbeat_tick s)
  | forcedFlush (s : SessionState) :
      Step cfg s (forced_flush_check cfg.forcedFlushThreshold s)

/-- States reachable from the freshly constructed session. -/
inductive Reachable (cfg : Config) : SessionState → Prop
  | init : Reachable cfg initState
  | step {s t : SessionState} :
      Reachable cfg s → Step cfg s t → Reachable cfg t

/-- The inductive session invariant: the counter relation, no filename
recorded twice, and the dispatched batch ids strictly increasing and
below the id counter. -/
def SessionInv (s : SessionState) : Prop :=
  s.readsQueued = s.readsFound - s.readsProcessed ∧
  s.filesDone.Nodup ∧
  List.Pairwise (· < ·) (s.dispatched.map Prod.fst) ∧
  ∀ b ∈ s.dispatched, b.1 < s.nextBatchId

/-- The `files_to_submit` list a flush of `s` would compute. -/
def files_to_submit (s : SessionState) : List String :=
  s.jobstack.filter (fun f => decide (f ∉ s.filesDone))

/-- The `num_canceled` count a flush of `s` would compute. -/
def num_canceled (s : SessionState) : Nat :=
  s.jobstack.length - (files_to_submit s).length

/-- The state/`nd_results` pair after the duplicate-removal loop of
`run_process_batch` (run on the state with `active_batches` already
incremented, as in the source). -/
def merge_fold (s : SessionState) (results : List PerFileResult) :
    SessionState × List PerFileResult :=
  results.foldl dedup_step ({ s with activeBatches := s.activeBatches + 1 }, [])

/-- A sample configuration: chunk size 10, quiet off. -/
def cfgEx : Config :=
  { batchChunkSize := 10, forcedFlushThreshold := 33,
    topdir := "/data/run1/", quiet := false }

/-- An `okay` result for a given file, with a `read_id` key present. -/
def okRes (f : String) : PerFileResult :=
  { filename := f, status := "okay", readId := some ("read-" ++ f) }

/-- Sample trace: discover `f1.fast5`. -/
def exS1 : SessionState :=
  queue_processing cfgEx.batchChunkSize initState "f1.fast5"

/-- Sample trace: flush, dispatching batch 0 = `[f1.fast5]`. -/
def exS2 : SessionState := flush_jobstack exS1

/-- Sample trace: batch 0 settles with an `okay` result for
`f1.fast5`. -/
def exS3 : SessionState :=
  run_process_batch_step WriterOutcome.ok exS2
    (BatchOutcome.results [okRes "f1.fast5"])

/-- Sample trace: the live watcher re-discovers `f1.fast5`. -/
def exS4 : SessionState :=
  queue_processing cfgEx.batchChunkSize exS3 "f1.fast5"

/-- Sample trace: flush again; the batch empties after filtering against
`files_done`, consuming batch id 1 without dispatching. -/
def exS5 : SessionState := flush_jobstack exS4

/-- Sample trace: discover `f2.fast5`. -/
def exS6 : SessionState :=
  queue_processing cfgEx.batchChunkSize exS5 "f2.fast5"

/-- Sample trace: flush, dispatching batch 2 = `[f2.fast5]`. -/
def exS7 : SessionState := flush_jobstack exS6

/-- A session state whose scan has finished with all counters at zero,
used against the `run` epilogue. -/
def sC5 : SessionState := { initState with scanFinished := true }

/-- Existence oracle for the two-file batch scenario: every file exists
except `gone.fast5`. -/
def exC7 : String → Bool := fun f => decide (f ≠ "gone.fast5")

/-- An analyzer returning an `okay` result for every file it is given. -/
def anC7 : String → Except WorkerError PerFileResult :=
  fun f => Except.ok (okRes f)

/-- An analyzer that would raise if it were ever invoked on
`gone.fast5`. -/
def anC7bad : String → Except WorkerError PerFileResult :=
  fun f => if f = "gone.fast5"
    then Except.error
      { typeName := "RuntimeError", message := "analyzer invoked on a vanished file",
        tracebackLines := [] }
    else anC7 f

/-- An empty barcode assignment. -/
def bcC7 : String → Option String := fun _ => none

/-- The two-file batch of the vanished-file scenario. -/
def readsC7 : List String := ["a.fast5", "gone.fast5"]

/-- The `disappeared` dictionary for `gone.fast5` (no `read_id` key). -/
def disapG : PerFileResult := { filename := "gone.fast5", status := "disappeared" }

/-- A session state with the two scenario files queued and found. -/
def sC7 : SessionState :=
  queue_processing 10 (queue_processing 10 initState "a.fast5") "gone.fast5"

/-- An existence oracle under which every file exists. -/
def exAll : String → Bool := fun _ => true

/-- A sample worker exception. -/
def eC6 : WorkerError :=
  { typeName := "ValueError", message := "bad signal",
    tracebackLines := ["Traceback (most recent call last):",
                       "ValueError: bad signal"] }

/-- An analyzer that raises `eC6` on every file. -/
def anC6 : String → Except WorkerError PerFileResult :=
  fun _ => Except.error eC6

/-- A qualifying watch event whose absolute path lies outside the
watched root `/data/run1/`. -/
def evOut : WatchEvent :=
  { isDir := false, maskMatch := true, path := "/other/run2",
    filename := "x.fast5" }

/-- A qualifying watch event inside the watched root `/data/run1/`. -/
def evIn : WatchEvent :=
  { isDir := false, maskMatch := true, path := "/data/run1/sub",
    filename := "x.fast5" }

/-- A Python exception as observed by the exception handlers of
`ProcessingSession.run`: whether it is a `RuntimeError`, its
`args[0]`, its `str()` rendering, and the lines `traceback.print_exc`
would produce. -/
structure PyExc where
  isRuntimeError : Bool
  arg0 : String
  excStr : String
  tracebackLines : List String
  deriving Repr, DecidableEq

/-- Outcome of one `loop.run_until_complete(task)` call inside
`ProcessingSession.run`: the task completed, the await raised
`CancelledError`, or it raised some other exception. -/
inductive AwaitResult where
  | completed
  | cancelledErr
  | raised (exc : PyExc)
  deriving Repr, DecidableEq

/-- The `try` around `run_until_complete(monitor_task)` in
`ProcessingSession.run`: `CancelledError` prints an interruption line
(leading newline dropped); a `RuntimeError` whose `args[0]` starts with
`Event loop stopped before Future` is passed over; any other exception
prints an error line and hands each traceback line to
`logging.error`.  No path re-raises. -/
def monitor_await_step (s : SessionState) (m : AwaitResult) : SessionState :=
  match m with
  | AwaitResult.completed => s
  | AwaitResult.cancelledErr => { s with errLog := s.errLog ++ ["Interrupted"] }
  | AwaitResult.raised exc =>
      if exc.isRuntimeError &&
          str_startsWith exc.arg0 "Event loop stopped before Future" then s
      else { s with errLog := s.errLog ++ ["ERROR: " ++ exc.excStr],
                    logErrors := s.logErrors ++ exc.tracebackLines }

/-- One iteration of the drain loop of `ProcessingSession.run`: each
still-pending task is awaited with `CancelledError` and any other
exception swallowed into one printed line.  No path re-raises. -/
def drain_step (s : SessionState) (r : AwaitResult) : SessionState :=
  match r with
  | AwaitResult.completed => s
  | AwaitResult.cancelledErr => { s with errLog := s.errLog ++ ["Interrupted"] }
  | AwaitResult.raised exc =>
      { s with errLog := s.errLog ++ ["ERROR: " ++ exc.excStr] }

/-- The tail of `ProcessingSession.run` after the event loop stops,
with the session state at that point and the outcomes of the awaited
tasks supplied as oracles: the guarded await of the monitor task, the
forceful worker termination (`terminate_executors`, no session-state
effect), the drain loop over the still-pending tasks (`ds`), and the
epilogue computing the return value.  The function is total: every
fault outcome is absorbed by a handler and execution always reaches
the epilogue. -/
def run_driver (quiet : Bool) (s : SessionState) (m : AwaitResult)
    (ds : List AwaitResult) : SessionState × RunEpilogue :=
  let s1 := monitor_await_step s m
  let s2 := ds.foldl drain_step s1
  (s2, run_epilogue quiet s2)

attribute [ext] SessionState

/-! ## Basic characterizations of `stop`, `errx` and `flush_jobstack` -/

theorem stop_of_running (s : SessionState) (h : s.running = true) :
    stop s = { s with running := false,
                      errLog := s.errLog ++ [terminationNotice],
                      cancelSweeps := s.cancelSweeps + 1,
                      loopStopCalls := s.loopStopCalls + 1 } := by
  simp [stop, h]

theorem stop_of_not_running (s : SessionState) (h : s.running = false) :
    stop s = { s with cancelSweeps := s.cancelSweeps + 1,
                      loopStopCalls := s.loopStopCalls + 1 } := by
  simp [stop, h]

theorem errx_of_running (m : String) (s : SessionState) (h : s.running = true) :
    errx m s = { s with running := false,
                        errLog := s.errLog ++ [m, terminationNotice],
                        cancelSweeps := s.cancelSweeps + 1,
                        loopStopCalls := s.loopStopCalls + 1 } := by
  simp [errx, stop, h]

theorem errx_of_not_running (m : String) (s : SessionState) (h : s.running = false) :
    errx m s = s := by
  simp [errx, h]

theorem errx_core (m : String) (s : SessionState) :
    (errx m s).readsQueued = s.readsQueued ∧
    (errx m s).readsFound = s.readsFound ∧
    (errx m s).readsProcessed = s.readsProcessed ∧
    (errx m s).filesDone = s.filesDone ∧
    (errx m s).dispatched = s.dispatched ∧
    (errx m s).nextBatchId = s.nextBatchId ∧
    (errx m s).jobstack = s.jobstack ∧
    (errx m s).activeBatches = s.activeBatches ∧
    (errx m s).scanFinished = s.scanFinished ∧
    (errx m s).duplicatesCanceled = s.duplicatesCanceled ∧
    (errx m s).forcedFlushCounter = s.forcedFlushCounter ∧
    (errx m s).logErrors = s.logErrors := by
  cases h : s.running
  · rw [errx_of_not_running m s h]
    exact ⟨rfl, rfl, rfl, rfl, rfl, rfl, rfl, rfl, rfl, rfl, rfl, rfl⟩
  · rw [errx_of_running m s h]
    exact ⟨rfl, rfl, rfl, rfl, rfl, rfl, rfl, rfl, rfl, rfl, rfl, rfl⟩

theorem flush_of_noop (s : SessionState)
    (h : s.running = false ∨ s.jobstack = []) : flush_jobstack s = s := by
  have hc : ¬ (s.running = true ∧ s.jobstack ≠ []) := by
    rcases h with h | h <;> simp [h]
  simp only [flush_jobstack, if_neg hc]

theorem flush_spec (s : SessionState)
    (hr : s.running = true) (hj : s.jobstack ≠ []) :
    flush_jobstack s =
      { s with nextBatchId := s.nextBatchId + 1,
               readsQueued := s.readsQueued - num_canceled s,
               readsFound := s.readsFound - num_canceled s,
               duplicatesCanceled := s.duplicatesCanceled + num_canceled s,
               jobstack := [],
               dispatched := if files_to_submit s ≠ []
                 then s.dispatched ++ [(s.nextBatchId, files_to_submit s)]
                 else s.dispatched } := by
  unfold flush_jobstack files_to_submit num_canceled
  rw [if_pos ⟨hr, hj⟩]
  dsimp only
  unfold files_to_submit
  split <;> split <;> ext <;> dsimp only <;> first
  | rfl
  | omega

theorem filter_split_length (l fd : List String) :
    (l.filter (fun f => decide (f ∉ fd))).length +
      l.countP (fun f => decide (f ∈ fd)) = l.length := by
  induction l with
  | nil => rfl
  | cons a l ih =>
    simp only [List.filter_cons, List.countP_cons, decide_not] at ih ⊢
    by_cases h : a ∈ fd <;> simp [h] <;> omega

theorem length_sub_filter_eq_countP (l fd : List String) :
    l.length - (l.filter (fun f => decide (f ∉ fd))).length =
      l.countP (fun f => decide (f ∈ fd)) := by
  have h := filter_split_length l fd
  omega

theorem num_canceled_eq_countP (s : SessionState) :
    num_canceled s = s.jobstack.countP (fun f => decide (f ∈ s.filesDone)) := by
  unfold num_canceled files_to_submit
  exact length_sub_filter_eq_countP s.jobstack s.filesDone

theorem flush_frame (s : SessionState) :
    (flush_jobstack s).filesDone = s.filesDone ∧
    (flush_jobstack s).readsProcessed = s.readsProcessed ∧
    (flush_jobstack s).running = s.running ∧
    (flush_jobstack s).scanFinished = s.scanFinished ∧
    (flush_jobstack s).activeBatches = s.activeBatches ∧
    (flush_jobstack s).errLog = s.errLog ∧
    (flush_jobstack s).logErrors = s.logErrors ∧
    (flush_jobstack s).cancelSweeps = s.cancelSweeps ∧
    (flush_jobstack s).loopStopCalls = s.loopStopCalls ∧
    (flush_jobstack s).forcedFlushCounter = s.forcedFlushCounter := by
  by_cases hc : s.running = true ∧ s.jobstack ≠ []
  · rw [flush_spec s hc.1 hc.2]
    exact ⟨rfl, rfl, rfl, rfl, rfl, rfl, rfl, rfl, rfl, rfl⟩
  · have h : s.running = false ∨ s.jobstack = [] := by
      rcases Classical.em (s.running = true) with h | h
      · right
        by_contra hne
        exact hc ⟨h, hne⟩
      · left
        cases hb : s.running
        · rfl
        · exact absurd hb h
    rw [flush_of_noop s h]
    exact ⟨rfl, rfl, rfl, rfl, rfl, rfl, rfl, rfl, rfl, rfl⟩

/-! ## The duplicate-removal loop -/

theorem dedup_step_of_mem (s : SessionState) (nd : List PerFileResult)
    (r : PerFileResult) (h : r.filename ∈ s.filesDone) :
    dedup_step (s, nd) r =
      ({ s with readsQueued := s.readsQueued - 1,
                readsFound := s.readsFound - 1,
                duplicatesCanceled := s.duplicatesCanceled + 1 }, nd) := by
  simp [dedup_step, h]

theorem dedup_step_of_new_okay (s : SessionState) (nd : List PerFileResult)
    (r : PerFileResult) (h : r.filename ∉ s.filesDone) (hok : r.status = "okay") :
    dedup_step (s, nd) r =
      ({ s with filesDone := s.filesDone ++ [r.filename] }, nd ++ [r]) := by
  simp [dedup_step, h, hok]

theorem dedup_step_of_new_other (s : SessionState) (nd : List PerFileResult)
    (r : PerFileResult) (h : r.filename ∉ s.filesDone) (hok : r.status ≠ "okay") :
    dedup_step (s, nd) r = (s, nd ++ [r]) := by
  simp [dedup_step, h, hok]

theorem dedup_fold_delta (rs : List PerFileResult) :
    ∀ (s : SessionState) (nd : List PerFileResult),
      ∃ (d : Nat) (newdone : List String),
        (rs.foldl dedup_step (s, nd)).1 =
          { s with readsQueued := s.readsQueued - d,
                   readsFound := s.readsFound - d,
                   duplicatesCanceled := s.duplicatesCanceled + d,
                   filesDone := s.filesDone ++ newdone } ∧
        newdone.Nodup ∧
        (∀ f ∈ newdone, f ∉ s.filesDone ∧
          ∃ r ∈ rs, r.filename = f ∧ r.status = "okay") ∧
        (∀ r ∈ rs, r.status = "okay" → r.filename ∈ s.filesDone ++ newdone) := by
  induction rs with
  | nil =>
    intro s nd
    refine ⟨0, [], ?_, List.nodup_nil, ?_, ?_⟩
    · ext <;> dsimp only <;> first
      | rfl
      | omega
      | simp
    · intro f hf
      cases hf
    · intro r hr
      cases hr
  | cons r rs ih =>
    intro s nd
    rw [List.foldl_cons]
    by_cases hmem : r.filename ∈ s.filesDone
    · rw [dedup_step_of_mem s nd r hmem]
      obtain ⟨d, newdone, h1, h2, h3, h4⟩ := ih _ nd
      refine ⟨d + 1, newdone, ?_, h2, ?_, ?_⟩
      · rw [h1]
        ext <;> dsimp only <;> first
        | rfl
        | omega
      · intro f hf
        obtain ⟨hnm, rr, hrr, hfn, hst⟩ := h3 f hf
        exact ⟨hnm, rr, List.mem_cons_of_mem r hrr, hfn, hst⟩
      · intro q hq hok
        rcases List.mem_cons.mp hq with h | h
        · subst h
          exact List.mem_append_left _ hmem
        · exact h4 q h hok
    · by_cases hok : r.status = "okay"
      · rw [dedup_step_of_new_okay s nd r hmem hok]
        obtain ⟨d, newdone, h1, h2, h3, h4⟩ := ih _ (nd ++ [r])
        refine ⟨d, r.filename :: newdone, ?_, ?_, ?_, ?_⟩
        · rw [h1]
          ext <;> dsimp only <;> first
          | rfl
          | omega
          | simp
        · refine List.nodup_cons.mpr ⟨?_, h2⟩
          intro hin
          have hnm := (h3 r.filename hin).1
          exact hnm (List.mem_append_right _ (List.mem_singleton.mpr rfl))
        · intro f hf
          rcases List.mem_cons.mp hf with h | h
          · subst h
            exact ⟨hmem, r, List.mem_cons_self r rs, rfl, hok⟩
          · obtain ⟨hnm, rr, hrr, hfn, hst⟩ := h3 f h
            refine ⟨?_, rr, List.mem_cons_of_mem r hrr, hfn, hst⟩
            intro hc
            exact hnm (List.mem_append_left _ hc)
        · intro q hq hok'
          rcases List.mem_cons.mp hq with h | h
          · subst h
            exact List.mem_append_right _ (List.mem_cons_self _ _)
          · have h5 := h4 q h hok'
            have h6 : SessionState.filesDone
                { s with filesDone := s.filesDone ++ [r.filename] } ++ newdone =
                s.filesDone ++ r.filename :: newdone := by
              dsimp only
              simp
            rw [h6] at h5
            exact h5
      · rw [dedup_step_of_new_other s nd r hmem hok]
        obtain ⟨d, newdone, h1, h2, h3, h4⟩ := ih _ (nd ++ [r])
        refine ⟨d, newdone, h1, h2, ?_, ?_⟩
        · intro f hf
          obtain ⟨hnm, rr, hrr, hfn, hst⟩ := h3 f hf
          exact ⟨hnm, rr, List.mem_cons_of_mem r hrr, hfn, hst⟩
        · intro q hq hok'
          rcases List.mem_cons.mp hq with h | h
          · subst h
            exact absurd hok' hok
          · exact h4 q h hok'

/-! ## Characterizations of the batch-settling step -/

theorem settle_fatal_spec (w : WriterOutcome) (s : SessionState)
    (m : String) (tb : List String) (hr : s.running = true) :
    run_process_batch_step w s (BatchOutcome.fatal m tb) =
      { s with logErrors := s.logErrors ++ [m] ++ tb,
               errLog := s.errLog ++ ["ERROR: " ++ m, terminationNotice],
               running := false,
               cancelSweeps := s.cancelSweeps + 1,
               loopStopCalls := s.loopStopCalls + 1 } := by
  unfold run_process_batch_step errx stop
  dsimp only
  simp only [hr]
  ext <;> dsimp only <;> first
  | rfl
  | omega
  | simp

theorem settle_fatal_not_running (w : WriterOutcome) (s : SessionState)
    (m : String) (tb : List String) (hr : s.running = false) :
    run_process_batch_step w s (BatchOutcome.fatal m tb) =
      { s with logErrors := s.logErrors ++ [m] ++ tb } := by
  unfold run_process_batch_step errx
  dsimp only
  simp only [hr]
  ext <;> dsimp only <;> first
  | rfl
  | omega
  | simp

theorem settle_results_ok (s : SessionState) (results : List PerFileResult) :
    run_process_batch_step WriterOutcome.ok s (BatchOutcome.results results) =
      { (merge_fold s results).1 with
          activeBatches := (merge_fold s results).1.activeBatches - 1,
          readsProcessed := (merge_fold s results).1.readsProcessed +
            ((merge_fold s results).2.length : Int),
          readsQueued := (merge_fold s results).1.readsQueued -
            ((merge_fold s results).2.length : Int) } := by
  unfold run_process_batch_step merge_fold
  dsimp only
  split
  · rfl
  · rfl

theorem settle_results_nd_nil (w : WriterOutcome) (s : SessionState)
    (results : List PerFileResult) (hnd : (merge_fold s results).2 = []) :
    run_process_batch_step w s (BatchOutcome.results results) =
      { (merge_fold s results).1 with
          activeBatches := (merge_fold s results).1.activeBatches - 1,
          readsProcessed := (merge_fold s results).1.readsProcessed +
            ((merge_fold s results).2.length : Int),
          readsQueued := (merge_fold s results).1.readsQueued -
            ((merge_fold s results).2.length : Int) } := by
  unfold run_process_batch_step
  unfold merge_fold at hnd ⊢
  dsimp only
  rw [if_pos hnd]

theorem settle_results_cancelled (s : SessionState) (results : List PerFileResult)
    (hnd : (merge_fold s results).2 ≠ []) :
    run_process_batch_step WriterOutcome.cancelled s (BatchOutcome.results results) =
      { (merge_fold s results).1 with
          activeBatches := (merge_fold s results).1.activeBatches - 1 } := by
  unfold run_process_batch_step
  unfold merge_fold at hnd ⊢
  dsimp only
  rw [if_neg hnd]

theorem settle_results_raises_running (s : SessionState)
    (results : List PerFileResult) (m : String)
    (hnd : (merge_fold s results).2 ≠ [])
    (hr : (merge_fold s results).1.running = true) :
    run_process_batch_step (WriterOutcome.raises m) s (BatchOutcome.results results) =
      { (merge_fold s results).1 with
          logErrors := (merge_fold s results).1.logErrors ++
            ["Unhandled error during processing reads"],
          errLog := (merge_fold s results).1.errLog ++
            ["ERROR: Unhandled error " ++ m, terminationNotice],
          running := false,
          cancelSweeps := (merge_fold s results).1.cancelSweeps + 1,
          loopStopCalls := (merge_fold s results).1.loopStopCalls + 1,
          activeBatches := (merge_fold s results).1.activeBatches - 1 } := by
  unfold run_process_batch_step errx stop
  unfold merge_fold at hnd hr ⊢
  dsimp only
  rw [if_neg hnd]
  simp only [hr]
  ext <;> dsimp only <;> first
  | rfl
  | omega
  | simp

theorem settle_results_raises_not_running (s : SessionState)
    (results : List PerFileResult) (m : String)
    (hnd : (merge_fold s results).2 ≠ [])
    (hr : (merge_fold s results).1.running = false) :
    run_process_batch_step (WriterOutcome.raises m) s (BatchOutcome.results results) =
      { (merge_fold s results).1 with
          logErrors := (merge_fold s results).1.logErrors ++
            ["Unhandled error during processing reads"],
          activeBatches := (merge_fold s results).1.activeBatches - 1 } := by
  unfold run_process_batch_step errx
  unfold merge_fold at hnd hr ⊢
  dsimp only
  rw [if_neg hnd]
  simp only [hr]
  ext <;> dsimp only <;> rfl

theorem merge_fold_frame (s : SessionState) (results : List PerFileResult) :
    (merge_fold s results).1.running = s.running ∧
    (merge_fold s results).1.scanFinished = s.scanFinished ∧
    (merge_fold s results).1.readsProcessed = s.readsProcessed ∧
    (merge_fold s results).1.nextBatchId = s.nextBatchId ∧
    (merge_fold s results).1.dispatched = s.dispatched ∧
    (merge_fold s results).1.jobstack = s.jobstack ∧
    (merge_fold s results).1.activeBatches = s.activeBatches + 1 ∧
    (merge_fold s results).1.errLog = s.errLog ∧
    (merge_fold s results).1.logErrors = s.logErrors ∧
    (merge_fold s results).1.forcedFlushCounter = s.forcedFlushCounter ∧
    (merge_fold s results).1.cancelSweeps = s.cancelSweeps ∧
    (merge_fold s results).1.loopStopCalls = s.loopStopCalls := by
  obtain ⟨d, newdone, h1, _, _, _⟩ :=
    dedup_fold_delta results { s with activeBatches := s.activeBatches + 1 } []
  unfold merge_fold
  rw [h1]
  exact ⟨rfl, rfl, rfl, rfl, rfl, rfl, rfl, rfl, rfl, rfl, rfl, rfl⟩

theorem merge_fold_delta (s : SessionState) (results : List PerFileResult) :
    ∃ (d : Nat) (newdone : List String),
      ((merge_fold s results).1.readsQueued = s.readsQueued - d ∧
       (merge_fold s results).1.readsFound = s.readsFound - d ∧
       (merge_fold s results).1.duplicatesCanceled = s.duplicatesCanceled + d ∧
       (merge_fold s results).1.filesDone = s.filesDone ++ newdone) ∧
      newdone.Nodup ∧
      (∀ f ∈ newdone, f ∉ s.filesDone ∧
        ∃ r ∈ results, r.filename = f ∧ r.status = "okay") ∧
      (∀ r ∈ results, r.status = "okay" →
        r.filename ∈ s.filesDone ++ newdone) := by
  obtain ⟨d, newdone, h1, h2, h3, h4⟩ :=
    dedup_fold_delta results { s with activeBatches := s.activeBatches + 1 } []
  refine ⟨d, newdone, ?_, h2, h3, h4⟩
  unfold merge_fold
  rw [h1]
  exact ⟨rfl, rfl, rfl, rfl⟩

/-! ## Preservation of the session invariant -/

theorem sessionInv_congr {s t : SessionState}
    (h1 : t.readsQueued = s.readsQueued) (h2 : t.readsFound = s.readsFound)
    (h3 : t.readsProcessed = s.readsProcessed) (h4 : t.filesDone = s.filesDone)
    (h5 : t.dispatched = s.dispatched) (h6 : t.nextBatchId = s.nextBatchId)
    (h : SessionInv s) : SessionInv t := by
  unfold SessionInv at h ⊢
  rw [h1, h2, h3, h4, h5, h6]
  exact h

theorem stop_core (s : SessionState) :
    (stop s).readsQueued = s.readsQueued ∧
    (stop s).readsFound = s.readsFound ∧
    (stop s).readsProcessed = s.readsProcessed ∧
    (stop s).filesDone = s.filesDone ∧
    (stop s).dispatched = s.dispatched ∧
    (stop s).nextBatchId = s.nextBatchId ∧
    (stop s).jobstack = s.jobstack ∧
    (stop s).activeBatches = s.activeBatches ∧
    (stop s).scanFinished = s.scanFinished ∧
    (stop s).duplicatesCanceled = s.duplicatesCanceled ∧
    (stop s).forcedFlushCounter = s.forcedFlushCounter ∧
    (stop s).logErrors = s.logErrors := by
  cases h : s.running
  · rw [stop_of_not_running s h]
    exact ⟨rfl, rfl, rfl, rfl, rfl, rfl, rfl, rfl, rfl, rfl, rfl, rfl⟩
  · rw [stop_of_running s h]
    exact ⟨rfl, rfl, rfl, rfl, rfl, rfl, rfl, rfl, rfl, rfl, rfl, rfl⟩

theorem inv_stop (s : SessionState) (h : SessionInv s) : SessionInv (stop s) := by
  obtain ⟨h1, h2, h3, h4, h5, h6, _⟩ := stop_core s
  exact sessionInv_congr h1 h2 h3 h4 h5 h6 h

theorem inv_errx (m : String) (s : SessionState) (h : SessionInv s) :
    SessionInv (errx m s) := by
  obtain ⟨h1, h2, h3, h4, h5, h6, _⟩ := errx_core m s
  exact sessionInv_congr h1 h2 h3 h4 h5 h6 h

theorem inv_flush (s : SessionState) (h : SessionInv s) :
    SessionInv (flush_jobstack s) := by
  by_cases hc : s.running = true ∧ s.jobstack ≠ []
  · obtain ⟨hQ, hN, hP, hB⟩ := h
    rw [flush_spec s hc.1 hc.2]
    refine ⟨by dsimp only; omega, hN, ?_, ?_⟩
    · dsimp only
      split
      · rw [List.map_append]
        simp only [List.map_cons, List.map_nil]
        rw [List.pairwise_append]
        refine ⟨hP, List.pairwise_singleton _ _, ?_⟩
        intro a ha b hb
        rw [List.mem_map] at ha
        obtain ⟨p, hp, hpa⟩ := ha
        rw [List.mem_singleton] at hb
        subst hb
        rw [← hpa]
        exact hB p hp
      · exact hP
    · dsimp only
      intro b hb
      split at hb
      · rcases List.mem_append.mp hb with h | h
        · exact Nat.lt_succ_of_lt (hB b h)
        · rw [List.mem_singleton] at h
          subst h
          exact Nat.lt_succ_self _
      · exact Nat.lt_succ_of_lt (hB b hb)
  · have hz : s.running = false ∨ s.jobstack = [] := by
      rcases Classical.em (s.running = true) with h2 | h2
      · right
        by_contra hne
        exact hc ⟨h2, hne⟩
      · left
        cases hb : s.running
        · rfl
        · exact absurd hb h2
    rw [flush_of_noop s hz]
    exact h

theorem inv_queue (c : Nat) (s : SessionState) (p : String)
    (h : SessionInv s) : SessionInv (queue_processing c s p) := by
  have h1 : SessionInv (jobstack_push s p) := by
    obtain ⟨hQ, hN, hP, hB⟩ := h
    unfold jobstack_push
    exact ⟨by dsimp only; omega, hN, hP, hB⟩
  unfold queue_processing
  dsimp only
  split
  · exact inv_flush _ h1
  · exact h1

theorem inv_settle (w : WriterOutcome) (s : SessionState) (o : BatchOutcome)
    (h : SessionInv s) : SessionInv (run_process_batch_step w s o) := by
  obtain ⟨hQ, hN, hP, hB⟩ := h
  cases o with
  | fatal m tb =>
    cases hr : s.running
    · rw [settle_fatal_not_running w s m tb hr]
      exact ⟨hQ, hN, hP, hB⟩
    · rw [settle_fatal_spec w s m tb hr]
      exact ⟨hQ, hN, hP, hB⟩
  | results results =>
    obtain ⟨d, newdone, ⟨hq, hf, hdup, hfd⟩, hnodup2, hmem2, _⟩ :=
      merge_fold_delta s results
    obtain ⟨hrun, hsf, hPr, hNb, hDs, hJs, hAb, hEl, hLl, hFf, hCs, hLs⟩ :=
      merge_fold_frame s results
    have hInvP : SessionInv (merge_fold s results).1 := by
      refine ⟨?_, ?_, ?_, ?_⟩
      · rw [hq, hf, hPr]
        omega
      · rw [hfd]
        exact List.Nodup.append hN hnodup2 (fun a ha hb => (hmem2 a hb).1 ha)
      · rw [hDs]
        exact hP
      · intro b hb
        rw [hDs] at hb
        rw [hNb]
        exact hB b hb
    obtain ⟨hQp, hNp, hPp, hBp⟩ := hInvP
    cases w with
    | ok =>
      rw [settle_results_ok s results]
      exact ⟨by dsimp only; omega, hNp, hPp, fun b hb => hBp b hb⟩
    | raises m =>
      by_cases hndl : (merge_fold s results).2 = []
      · rw [settle_results_nd_nil (WriterOutcome.raises m) s results hndl]
        exact ⟨by dsimp only; omega, hNp, hPp, fun b hb => hBp b hb⟩
      · cases hrs : (merge_fold s results).1.running
        · rw [settle_results_raises_not_running s results m hndl hrs]
          exact ⟨hQp, hNp, hPp, fun b hb => hBp b hb⟩
        · rw [settle_results_raises_running s results m hndl hrs]
          exact ⟨hQp, hNp, hPp, fun b hb => hBp b hb⟩
    | cancelled =>
      by_cases hndl : (merge_fold s results).2 = []
      · rw [settle_results_nd_nil WriterOutcome.cancelled s results hndl]
        exact ⟨by dsimp only; omega, hNp, hPp, fun b hb => hBp b hb⟩
      · rw [settle_results_cancelled s results hndl]
        exact ⟨hQp, hNp, hPp, fun b hb => hBp b hb⟩

theorem inv_watch (c : Nat) (td : String) (s : SessionState) (ev : WatchEvent)
    (h : SessionInv s) : SessionInv (live_monitor_step c td s ev) := by
  unfold live_monitor_step
  dsimp only
  split
  · exact h
  · split
    · split
      · exact sessionInv_congr rfl rfl rfl rfl rfl rfl h
      · split
        · exact h
        · apply inv_queue
          obtain ⟨hQ, hN, hP, hB⟩ := h
          exact ⟨hQ, hN, hP, hB⟩
    · exact h

theorem inv_scan_finish (s : SessionState) (h : SessionInv s) :
    SessionInv (scan_finish_step s) := by
  unfold scan_finish_step
  exact sessionInv_congr rfl rfl rfl rfl rfl rfl (inv_flush s h)

theorem inv_heartbeat (s : SessionState) (h : SessionInv s) :
    SessionInv (live_heartbeat_tick s) := by
  unfold live_heartbeat_tick
  split
  · exact sessionInv_congr rfl rfl rfl rfl rfl rfl h
  · exact h

theorem inv_forced_flush (ts : Nat) (s : SessionState) (h : SessionInv s) :
    SessionInv (forced_flush_check ts s) := by
  unfold forced_flush_check
  split
  · apply inv_flush
    obtain ⟨hQ, hN, hP, hB⟩ := h
    exact ⟨hQ, hN, hP, hB⟩
  · exact h

theorem reachable_inv {cfg : Config} {s : SessionState}
    (h : Reachable cfg s) : SessionInv s := by
  induction h with
  | init =>
    exact ⟨by decide, List.nodup_nil, List.Pairwise.nil, by intro b hb; cases hb⟩
  | step hprev hstep ih =>
    cases hstep with
    | queue p => exact inv_queue _ _ _ ih
    | flush => exact inv_flush _ ih
    | settle w o => exact inv_settle _ _ _ ih
    | stopStep => exact inv_stop _ ih
    | errxStep m => exact inv_errx _ _ ih
    | watch ev => exact inv_watch _ _ _ _ ih
    | scanFinish => exact inv_scan_finish _ ih
    | heartbeat => exact inv_heartbeat _ ih
    | forcedFlush => exact inv_forced_flush _ _ ih

/-! ## Frame lemmas for `files_done` and the prefix test -/

theorem queue_filesDone (c : Nat) (s : SessionState) (p : String) :
    (queue_processing c s p).filesDone = s.filesDone := by
  unfold queue_processing jobstack_push
  dsimp only
  split
  · exact (flush_frame _).1
  · rfl

theorem watch_filesDone (c : Nat) (td : String) (s : SessionState)
    (ev : WatchEvent) :
    (live_monitor_step c td s ev).filesDone = s.filesDone := by
  unfold live_monitor_step
  dsimp only
  split
  · rfl
  · split
    · split
      · rfl
      · split
        · rfl
        · exact queue_filesDone _ _ _
    · rfl

theorem scan_finish_filesDone (s : SessionState) :
    (scan_finish_step s).filesDone = s.filesDone := by
  unfold scan_finish_step
  exact (flush_frame s).1

theorem heartbeat_filesDone (s : SessionState) :
    (live_heartbeat_tick s).filesDone = s.filesDone := by
  unfold live_heartbeat_tick
  split <;> rfl

theorem forced_flush_filesDone (ts : Nat) (s : SessionState) :
    (forced_flush_check ts s).filesDone = s.filesDone := by
  unfold forced_flush_check
  split
  · exact (flush_frame _).1
  · rfl

theorem settle_fatal_filesDone (w : WriterOutcome) (s : SessionState)
    (m : String) (tb : List String) :
    (run_process_batch_step w s (BatchOutcome.fatal m tb)).filesDone =
      s.filesDone := by
  cases hr : s.running
  · rw [settle_fatal_not_running w s m tb hr]
  · rw [settle_fatal_spec w s m tb hr]

theorem settle_results_filesDone (w : WriterOutcome) (s : SessionState)
    (results : List PerFileResult) :
    (run_process_batch_step w s (BatchOutcome.results results)).filesDone =
      (merge_fold s results).1.filesDone := by
  cases w with
  | ok => rw [settle_results_ok]
  | raises m =>
    by_cases hnd : (merge_fold s results).2 = []
    · rw [settle_results_nd_nil _ _ _ hnd]
    · cases hr : (merge_fold s results).1.running
      · rw [settle_results_raises_not_running _ _ _ hnd hr]
      · rw [settle_results_raises_running _ _ _ hnd hr]
  | cancelled =>
    by_cases hnd : (merge_fold s results).2 = []
    · rw [settle_results_nd_nil _ _ _ hnd]
    · rw [settle_results_cancelled _ _ hnd]

theorem commonPrefAux_eq_left_iff (as : List Char) :
    ∀ bs : List Char, commonPrefAux as bs = as ↔ as <+: bs := by
  induction as with
  | nil =>
    intro bs
    cases bs <;> simp [commonPrefAux]
  | cons a as ih =>
    intro bs
    cases bs with
    | nil =>
      constructor
      · intro h
        simp [commonPrefAux] at h
      · intro h
        have := List.prefix_nil.mp h
        simp at this
    | cons b bs =>
      by_cases hab : a = b
      · subst hab
        simp [commonPrefAux, List.cons_prefix_cons, ih bs]
      · simp [commonPrefAux, hab, List.cons_prefix_cons]

theorem commonPref_eq_left_iff (a b : String) :
    commonPref a b = a ↔ a.data <+: b.data := by
  unfold commonPref
  cases a with
  | mk ad =>
    rw [← commonPrefAux_eq_left_iff ad b.data]
    constructor
    · intro h
      injection h
    · intro h
      rw [h]

/-! ## Reachability of the sample trace -/

theorem reach_exS1 : Reachable cfgEx exS1 :=
  Reachable.step Reachable.init (Step.queue initState "f1.fast5")

theorem reach_exS2 : Reachable cfgEx exS2 :=
  Reachable.step reach_exS1 (Step.flush exS1)

theorem reach_exS3 : Reachable cfgEx exS3 :=
  Reachable.step reach_exS2
    (Step.settle exS2 WriterOutcome.ok (BatchOutcome.results [okRes "f1.fast5"]))

theorem reach_exS4 : Reachable cfgEx exS4 :=
  Reachable.step reach_exS3 (Step.queue exS3 "f1.fast5")

theorem reach_exS5 : Reachable cfgEx exS5 :=
  Reachable.step reach_exS4 (Step.flush exS4)

theorem reach_exS6 : Reachable cfgEx exS6 :=
  Reachable.step reach_exS5 (Step.queue exS5 "f2.fast5")

theorem reach_exS7 : Reachable cfgEx exS7 :=
  Reachable.step reach_exS6 (Step.flush exS6)

/-! ## Claim C1: the counter equation -/

/-- C1 (counterexample): at the reachable state `exS5` — reached after
batch 0 settled with `f1.fast5` done and the re-discovered `f1.fast5`
was dropped at flush time — the claimed equation
`readsQueued = readsFound - readsProcessed - duplicatesCanceled` fails:
the drop decremented `readsFound` together with `readsQueued`, leaving
`0 ≠ 1 - 1 - 1`. -/
theorem C1_counterexample :
    Reachable cfgEx exS5 ∧
    ¬ (exS5.readsQueued =
        exS5.readsFound - exS5.readsProcessed - exS5.duplicatesCanceled) :=
  ⟨reach_exS5, by decide⟩

/-- C1 (amended): for every reachable session state — in particular
after every batch settles — `readsQueued = readsFound - readsProcessed`;
occurrences dropped as duplicates at flush time and at merge time
decrement `readsFound` along with `readsQueued`, so no separate
`duplicatesCanceled` term remains in the relation. -/
theorem C1_theorem (cfg : Config) (s : SessionState) (h : Reachable cfg s) :
    s.readsQueued = s.readsFound - s.readsProcessed :=
  (reachable_inv h).1

/-- C1 (witness): the amended equation holds at the concrete reachable
state `exS5`, where it evaluates to `0 = 1 - 1`. -/
theorem C1_witness :
    exS5.readsQueued = 0 ∧
    exS5.readsQueued = exS5.readsFound - exS5.readsProcessed :=
  ⟨by decide, C1_theorem cfgEx exS5 reach_exS5⟩

/-! ## Claim C2: `files_done` discipline -/

/-- C2: (1) in every reachable state no filename occurs twice in
`files_done`; (2) a step can add a filename to `files_done` only by
settling a batch whose results contain an `okay` result for that
filename; (3) a merge-time duplicate occurrence is dropped and
decrements `readsQueued` and `readsFound` by exactly one; (4) a flush
drops the already-done occurrences in the buffer and decrements both
counters by their count (one per occurrence). -/
theorem C2_theorem :
    (∀ (cfg : Config) (s : SessionState), Reachable cfg s →
      s.filesDone.Nodup) ∧
    (∀ (cfg : Config) (s t : SessionState), Step cfg s t →
      ∀ f : String, f ∉ s.filesDone → f ∈ t.filesDone →
        ∃ (w : WriterOutcome) (results : List PerFileResult),
          t = run_process_batch_step w s (BatchOutcome.results results) ∧
          ∃ r ∈ results, r.filename = f ∧ r.status = "okay") ∧
    (∀ (s : SessionState) (nd : List PerFileResult) (r : PerFileResult),
      r.filename ∈ s.filesDone →
        dedup_step (s, nd) r =
          ({ s with readsQueued := s.readsQueued - 1,
                    readsFound := s.readsFound - 1,
                    duplicatesCanceled := s.duplicatesCanceled + 1 }, nd)) ∧
    (∀ s : SessionState, s.running = true → s.jobstack ≠ [] →
      (flush_jobstack s).readsQueued =
          s.readsQueued -
            s.jobstack.countP (fun f => decide (f ∈ s.filesDone)) ∧
      (flush_jobstack s).readsFound =
          s.readsFound -
            s.jobstack.countP (fun f => decide (f ∈ s.filesDone))) := by
  refine ⟨?_, ?_, ?_, ?_⟩
  · intro cfg s h
    exact (reachable_inv h).2.1
  · intro cfg s t hstep f hnot hin
    cases hstep with
    | queue p =>
      rw [queue_filesDone] at hin
      exact absurd hin hnot
    | flush =>
      rw [(flush_frame s).1] at hin
      exact absurd hin hnot
    | settle w o =>
      cases o with
      | fatal m tb =>
        rw [settle_fatal_filesDone] at hin
        exact absurd hin hnot
      | results results =>
        refine ⟨w, results, rfl, ?_⟩
        rw [settle_results_filesDone] at hin
        obtain ⟨d, newdone, ⟨_, _, _, hfd⟩, _, hmem2, _⟩ :=
          merge_fold_delta s results
        rw [hfd] at hin
        rcases List.mem_append.mp hin with h | h
        · exact absurd h hnot
        · exact (hmem2 f h).2
    | stopStep =>
      rw [(stop_core s).2.2.2.1] at hin
      exact absurd hin hnot
    | errxStep m =>
      rw [(errx_core m s).2.2.2.1] at hin
      exact absurd hin hnot
    | watch ev =>
      rw [watch_filesDone] at hin
      exact absurd hin hnot
    | scanFinish =>
      rw [scan_finish_filesDone] at hin
      exact absurd hin hnot
    | heartbeat =>
      rw [heartbeat_filesDone] at hin
      exact absurd hin hnot
    | forcedFlush =>
      rw [forced_flush_filesDone] at hin
      exact absurd hin hnot
  · intro s nd r h
    exact dedup_step_of_mem s nd r h
  · intro s hr hj
    rw [flush_spec s hr hj]
    rw [num_canceled_eq_countP]
    exact ⟨rfl, rfl⟩

/-- C2 (witness): the discipline evaluated on the sample trace: the
fresh session has a duplicate-free `files_done`; dropping the duplicate
`okay` result for `f1.fast5` at state `exS3` decrements both counters
by one; the flush at state `exS4` (buffer `[f1.fast5]`, already done)
decrements both counters by the count of done occurrences. -/
theorem C2_witness :
    initState.filesDone.Nodup ∧
    dedup_step (exS3, []) (okRes "f1.fast5") =
      ({ exS3 with readsQueued := exS3.readsQueued - 1,
                   readsFound := exS3.readsFound - 1,
                   duplicatesCanceled := exS3.duplicatesCanceled + 1 }, []) ∧
    ((flush_jobstack exS4).readsQueued =
        exS4.readsQueued -
          exS4.jobstack.countP (fun f => decide (f ∈ exS4.filesDone)) ∧
     (flush_jobstack exS4).readsFound =
        exS4.readsFound -
          exS4.jobstack.countP (fun f => decide (f ∈ exS4.filesDone))) :=
  ⟨C2_theorem.1 cfgEx initState Reachable.init,
   C2_theorem.2.2.1 exS3 [] (okRes "f1.fast5") (by decide),
   C2_theorem.2.2.2 exS4 (by decide) (by decide)⟩

/-! ## Claim C3: batch id assignment -/

/-- C3 (counterexample): the reachable state `exS7` has dispatched
batch ids `[0, 2]`: the flush of the already-done `f1.fast5` consumed
id 1 and dispatched nothing, so the dispatched ids are neither the
sequence `0, 1, 2, ...` nor consecutive. -/
theorem C3_counterexample :
    Reachable cfgEx exS7 ∧
    exS7.dispatched.map Prod.fst = [0, 2] ∧
    exS7.dispatched.map Prod.fst ≠ List.range exS7.dispatched.length ∧
    ¬ List.Chain' (fun a b : Nat => b = a + 1)
        (exS7.dispatched.map Prod.fst) := by
  refine ⟨reach_exS7, by decide, by decide, ?_⟩
  intro hc
  rw [show exS7.dispatched.map Prod.fst = [0, 2] from by decide] at hc
  simp [List.chain'_cons] at hc

/-- C3 (amended): in every reachable state the ids of dispatched
batches are strictly increasing (hence never reused) and all below
`nextBatchId`; `nextBatchId` advances by exactly 1 per flush of a
nonempty buffer while running — whether or not the filtered batch is
dispatched — so a batch that empties after filtering consumes an id and
may leave a gap in the dispatched ids. -/
theorem C3_theorem :
    (∀ (cfg : Config) (s : SessionState), Reachable cfg s →
      List.Pairwise (· < ·) (s.dispatched.map Prod.fst) ∧
      ∀ b ∈ s.dispatched, b.1 < s.nextBatchId) ∧
    (∀ s : SessionState, s.running = true → s.jobstack ≠ [] →
      (flush_jobstack s).nextBatchId = s.nextBatchId + 1) := by
  constructor
  · intro cfg s h
    exact ⟨(reachable_inv h).2.2.1, (reachable_inv h).2.2.2⟩
  · intro s hr hj
    rw [flush_spec s hr hj]

/-- C3 (witness): the amended statement at the concrete state `exS7`
(ids `[0, 2]` strictly increasing and below `nextBatchId = 3`), and the
id consumption of the concrete flush from `exS6`. -/
theorem C3_witness :
    List.Pairwise (· < ·) (exS7.dispatched.map Prod.fst) ∧
    (∀ b ∈ exS7.dispatched, b.1 < exS7.nextBatchId) ∧
    (flush_jobstack exS6).nextBatchId = exS6.nextBatchId + 1 :=
  ⟨(C3_theorem.1 cfgEx exS7 reach_exS7).1,
   (C3_theorem.1 cfgEx exS7 reach_exS7).2,
   C3_theorem.2 exS6 (by decide) (by decide)⟩

/-! ## Claim C4: idempotence of `stop` -/

/-- C4 (counterexample): after a first `stop` the session is no longer
running, yet a second `stop` call still changes the state — it performs
another cancellation sweep over all tasks and another `loop.stop()` —
so calling `stop` when `running` is already false does not do
nothing. -/
theorem C4_counterexample :
    (stop initState).running = false ∧
    stop (stop initState) ≠ stop initState := by
  constructor
  · decide
  · decide

/-- C4 (amended): calling `stop` when `running` is already false
produces no log output and leaves `running` and every counter
unchanged, but it is not a no-op: it still re-issues the cancellation
sweep over all tasks and stops the event loop again (only the
termination notice and the `running` assignment are guarded by
`if self.running`). -/
theorem C4_theorem (s : SessionState) (h : s.running = false) :
    stop s = { s with cancelSweeps := s.cancelSweeps + 1,
                      loopStopCalls := s.loopStopCalls + 1 } :=
  stop_of_not_running s h

/-- C4 (witness): the amended characterization applied to the concrete
stopped session `stop initState`. -/
theorem C4_witness :
    stop (stop initState) =
      { stop initState with
          cancelSweeps := (stop initState).cancelSweeps + 1,
          loopStopCalls := (stop initState).loopStopCalls + 1 } :=
  C4_theorem (stop initState) (by decide)

/-! ## Claim C5: the return value of `run` -/

theorem run_epilogue_iff (quiet : Bool) (s : SessionState) :
    ((run_epilogue quiet s).ret = RunReturn.summaryCallback ↔
      quiet = false ∧ s.scanFinished = true ∧
        s.readsFound = s.readsProcessed) ∧
    ((run_epilogue quiet s).finalized = true ↔
      quiet = false ∧ s.scanFinished = true ∧
        s.readsFound = s.readsProcessed) := by
  cases hq : quiet <;> cases hs : s.scanFinished <;>
    by_cases hf : s.readsFound = s.readsProcessed <;>
      simp [run_epilogue, hq, hs, hf]

theorem monitor_await_delta (s : SessionState) (m : AwaitResult) :
    ∃ (e l : List String), monitor_await_step s m =
      { s with errLog := s.errLog ++ e, logErrors := s.logErrors ++ l } := by
  cases m with
  | completed =>
    refine ⟨[], [], ?_⟩
    simp only [monitor_await_step]
    ext <;> simp
  | cancelledErr =>
    refine ⟨["Interrupted"], [], ?_⟩
    simp only [monitor_await_step]
    ext <;> simp
  | raised exc =>
    by_cases hrt : (exc.isRuntimeError &&
        str_startsWith exc.arg0 "Event loop stopped before Future") = true
    · refine ⟨[], [], ?_⟩
      simp only [monitor_await_step]
      rw [if_pos hrt]
      ext <;> simp
    · refine ⟨["ERROR: " ++ exc.excStr], exc.tracebackLines, ?_⟩
      simp only [monitor_await_step]
      rw [if_neg hrt]

theorem drain_fold_delta (ds : List AwaitResult) :
    ∀ s : SessionState, ∃ e : List String,
      ds.foldl drain_step s = { s with errLog := s.errLog ++ e } := by
  induction ds with
  | nil =>
    intro s
    refine ⟨[], ?_⟩
    ext <;> simp
  | cons r ds ih =>
    intro s
    rw [List.foldl_cons]
    obtain ⟨e, he⟩ := ih (drain_step s r)
    cases r with
    | completed =>
      exact ⟨e, he⟩
    | cancelledErr =>
      refine ⟨"Interrupted" :: e, ?_⟩
      rw [he]
      ext <;> dsimp only [drain_step] <;> first
      | rfl
      | simp
    | raised exc =>
      refine ⟨("ERROR: " ++ exc.excStr) :: e, ?_⟩
      rw [he]
      ext <;> dsimp only [drain_step] <;> first
      | rfl
      | simp

/-- C5 (counterexample): with `quiet = true`, a run whose scan finished
with found and processed counters agreeing — monitor task completed,
nothing left to drain — still returns nothing and performs no
finalization: the epilogue of `run` is additionally guarded by
`not config['quiet']`, so the claimed "if and only if" fails. -/
theorem C5_counterexample :
    sC5.scanFinished = true ∧
    sC5.readsFound = sC5.readsProcessed ∧
    run_driver true sC5 AwaitResult.completed [] =
      (sC5, { finalized := false, ret := RunReturn.noResult }) :=
  ⟨by decide, by decide, by decide⟩

/-- C5 (amended): `run` returns the summary-printing callback — and
performs result finalization — exactly when the session is not quiet,
the scan completed, and `readsFound = readsProcessed` at shutdown; in
every other case, including abort and cancellation, it returns
nothing.  And it never terminates on an unhandled fault: whatever
fault surfaces from the awaited monitor task or from the shutdown
drain loop, the driver absorbs it — changing only the printed and
logged lines, never the counters or flags the epilogue reads — and
`run` still returns through the same epilogue rule. -/
theorem C5_theorem (quiet : Bool) (s : SessionState) (m : AwaitResult)
    (ds : List AwaitResult) :
    ((run_driver quiet s m ds).2.ret = RunReturn.summaryCallback ↔
      quiet = false ∧ s.scanFinished = true ∧
        s.readsFound = s.readsProcessed) ∧
    ((run_driver quiet s m ds).2.finalized = true ↔
      quiet = false ∧ s.scanFinished = true ∧
        s.readsFound = s.readsProcessed) ∧
    (∃ (e l : List String),
      (run_driver quiet s m ds).1 =
        { s with errLog := s.errLog ++ e, logErrors := s.logErrors ++ l }) ∧
    (run_driver quiet s m ds).2 =
      run_epilogue quiet (run_driver quiet s m ds).1 := by
  obtain ⟨e1, l1, h1⟩ := monitor_await_delta s m
  obtain ⟨e2, h2⟩ := drain_fold_delta ds (monitor_await_step s m)
  have hstate : (run_driver quiet s m ds).1 =
      { s with errLog := s.errLog ++ (e1 ++ e2),
               logErrors := s.logErrors ++ l1 } := by
    show ds.foldl drain_step (monitor_await_step s m) = _
    rw [h2, h1]
    ext <;> dsimp only <;> first
    | rfl
    | simp
  have hpair : (run_driver quiet s m ds).2 =
      run_epilogue quiet ((run_driver quiet s m ds).1) := rfl
  refine ⟨?_, ?_, ⟨e1 ++ e2, l1, hstate⟩, hpair⟩
  · rw [hpair, (run_epilogue_iff quiet ((run_driver quiet s m ds).1)).1,
      hstate]
  · rw [hpair, (run_epilogue_iff quiet ((run_driver quiet s m ds).1)).2,
      hstate]

/-! ## Claim C6: the fatal-error sentinel -/

/-- C6: an exception escaping the worker batch body is returned as the
fatal-error sentinel instead of propagating; on receiving the sentinel
the orchestrator logs its message and each traceback line through the
error logger, aborts the session (the running flag drops to false, with
exactly one interruption notice), still decrements `active_batches`,
and no subsequent flush can dispatch a batch; a sentinel arriving when
the session is already stopped flips nothing and prints nothing
further. -/
theorem C6_theorem (barcoding : Bool) (ex : String → Bool)
    (analyzer : String → Except WorkerError PerFileResult)
    (assg : String → Option String) (reads : List String) (e : WorkerError)
    (hfault : worker_batch_body barcoding ex analyzer assg reads =
      Except.error e)
    (w : WriterOutcome) (s : SessionState) (hrun : s.running = true) :
    process_batch barcoding ex analyzer assg reads =
      BatchOutcome.fatal
        ("Unhandled exception " ++ e.typeName ++ ": " ++ e.message)
        e.tracebackLines ∧
    (run_process_batch_step w s
        (process_batch barcoding ex analyzer assg reads)).running = false ∧
    (run_process_batch_step w s
        (process_batch barcoding ex analyzer assg reads)).logErrors =
      s.logErrors ++
        ["Unhandled exception " ++ e.typeName ++ ": " ++ e.message] ++
        e.tracebackLines ∧
    (run_process_batch_step w s
        (process_batch barcoding ex analyzer assg reads)).errLog =
      s.errLog ++
        ["ERROR: " ++ ("Unhandled exception " ++ e.typeName ++ ": " ++
          e.message), terminationNotice] ∧
    (run_process_batch_step w s
        (process_batch barcoding ex analyzer assg reads)).activeBatches =
      s.activeBatches ∧
    flush_jobstack (run_process_batch_step w s
        (process_batch barcoding ex analyzer assg reads)) =
      run_process_batch_step w s
        (process_batch barcoding ex analyzer assg reads) ∧
    (∀ (w2 : WriterOutcome) (t : SessionState), t.running = false →
      (run_process_batch_step w2 t
          (process_batch barcoding ex analyzer assg reads)).running = false ∧
      (run_process_batch_step w2 t
          (process_batch barcoding ex analyzer assg reads)).errLog =
        t.errLog) := by
  have hpb : process_batch barcoding ex analyzer assg reads =
      BatchOutcome.fatal
        ("Unhandled exception " ++ e.typeName ++ ": " ++ e.message)
        e.tracebackLines := by
    unfold process_batch
    rw [hfault]
  rw [hpb]
  rw [settle_fatal_spec w s _ _ hrun]
  refine ⟨rfl, rfl, rfl, rfl, rfl, ?_, ?_⟩
  · exact flush_of_noop _ (Or.inl rfl)
  · intro w2 t ht
    rw [settle_fatal_not_running w2 t _ _ ht]
    exact ⟨ht, rfl⟩

/-- C6 (witness): an analyzer raising `ValueError: bad signal` on the
single-file batch `[a.fast5]` stops the fresh session and logs the
sentinel message followed by the traceback lines. -/
theorem C6_witness :
    (run_process_batch_step WriterOutcome.ok initState
        (process_batch false exAll anC6 bcC7 ["a.fast5"])).running = false ∧
    (run_process_batch_step WriterOutcome.ok initState
        (process_batch false exAll anC6 bcC7 ["a.fast5"])).logErrors =
      initState.logErrors ++
        ["Unhandled exception " ++ eC6.typeName ++ ": " ++ eC6.message] ++
        eC6.tracebackLines :=
  ⟨(C6_theorem false exAll anC6 bcC7 ["a.fast5"] eC6 (by rfl)
      WriterOutcome.ok initState rfl).2.1,
   (C6_theorem false exAll anC6 bcC7 ["a.fast5"] eC6 (by rfl)
      WriterOutcome.ok initState rfl).2.2.1⟩

/-! ## Claim C7: vanished files -/

/-- C7 (code bug): with the classification feature disabled the claim
holds on the two-file batch `[a.fast5, gone.fast5]` with `gone.fast5`
vanished: the worker yields one `okay` and one `disappeared` result —
even under an analyzer that would raise if invoked on the vanished file
— and on merge both count toward `reads_processed`, only `a.fast5`
enters `files_done`, and nothing is re-queued.  But with the
classification feature enabled the same batch hits the `res['read_id']`
lookup in the barcode annotation loop — the `disappeared` dictionary
has no `read_id` key — so the whole batch is returned as the
`KeyError` fatal sentinel instead, aborting the session. -/
theorem C7_theorem :
    process_batch false exC7 anC7 bcC7 readsC7 =
      BatchOutcome.results [okRes "a.fast5", disapG] ∧
    process_batch false exC7 anC7bad bcC7 readsC7 =
      BatchOutcome.results [okRes "a.fast5", disapG] ∧
    (run_process_batch_step WriterOutcome.ok sC7
        (BatchOutcome.results [okRes "a.fast5", disapG])).readsProcessed = 2 ∧
    (run_process_batch_step WriterOutcome.ok sC7
        (BatchOutcome.results [okRes "a.fast5", disapG])).readsQueued = 0 ∧
    (run_process_batch_step WriterOutcome.ok sC7
        (BatchOutcome.results [okRes "a.fast5", disapG])).filesDone =
      ["a.fast5"] ∧
    (run_process_batch_step WriterOutcome.ok sC7
        (BatchOutcome.results [okRes "a.fast5", disapG])).jobstack =
      sC7.jobstack ∧
    process_batch true exC7 anC7 bcC7 readsC7 =
      BatchOutcome.fatal "Unhandled exception KeyError: read_id"
        ["KeyError: read_id"] :=
  ⟨by decide, by decide, by decide, by decide, by decide, by decide, by decide⟩

/-! ## Claim C8: `flush_jobstack` as a no-op -/

/-- C8: flushing with an empty pending buffer, or while the session is
not running, leaves the whole session state unchanged — in particular
no batch id is consumed and no batch is dispatched. -/
theorem C8_theorem (s : SessionState)
    (h : s.running = false ∨ s.jobstack = []) :
    flush_jobstack s = s :=
  flush_of_noop s h

/-- C8 (witness): the no-op on the fresh session (empty buffer) and on
the stopped state `stop exS1` (nonempty buffer, not running). -/
theorem C8_witness :
    flush_jobstack initState = initState ∧
    flush_jobstack (stop exS1) = stop exS1 :=
  ⟨C8_theorem initState (Or.inr rfl),
   C8_theorem (stop exS1) (Or.inl (by decide))⟩

/-! ## Claim C9: live-watch event handling -/

/-- C9: for a qualifying live-watch event (non-directory, matching mask
and suffix): the source's containment test `commonprefix = topdir` is
exactly string-prefix containment in the watched root; when the event
path is outside the root, the only effect is a warning line — the
session keeps running and nothing is enqueued; when it is inside, a
relative path not yet in `files_done` is enqueued via
`queue_processing` with the forced-flush watchdog counter reset to 0
first, and a relative path already in `files_done` leaves the state
unchanged. -/
theorem C9_theorem (chunkSize : Nat) (topdir : String) (s : SessionState)
    (ev : WatchEvent) (hdir : ev.isDir = false) (hmask : ev.maskMatch = true)
    (hsuf : str_endsWith (str_toLower ev.filename) FAST5_SUFFIX = true) :
    (commonPref topdir ev.path = topdir ↔ topdir.data <+: ev.path.data) ∧
    (commonPref topdir ev.path ≠ topdir →
      live_monitor_step chunkSize topdir s ev =
        { s with errLog := s.errLog ++
            ["ERROR: Change of " ++ ev.path ++ " detected, which is outside "
              ++ topdir ++ "."] } ∧
      (live_monitor_step chunkSize topdir s ev).running = s.running ∧
      (live_monitor_step chunkSize topdir s ev).jobstack = s.jobstack) ∧
    (commonPref topdir ev.path = topdir →
      (ospath_join (ev.path.drop topdir.length) ev.filename ∉ s.filesDone →
        live_monitor_step chunkSize topdir s ev =
          queue_processing chunkSize { s with forcedFlushCounter := 0 }
            (ospath_join (ev.path.drop topdir.length) ev.filename)) ∧
      (ospath_join (ev.path.drop topdir.length) ev.filename ∈ s.filesDone →
        live_monitor_step chunkSize topdir s ev = s)) := by
  have hstep : live_monitor_step chunkSize topdir s ev =
      (if commonPref topdir ev.path ≠ topdir then
        { s with errLog := s.errLog ++
            ["ERROR: Change of " ++ ev.path ++ " detected, which is outside "
              ++ topdir ++ "."] }
      else if ospath_join (ev.path.drop (commonPref topdir ev.path).length)
          ev.filename ∈ s.filesDone then s
      else queue_processing chunkSize { s with forcedFlushCounter := 0 }
        (ospath_join (ev.path.drop (commonPref topdir ev.path).length)
          ev.filename)) := by
    unfold live_monitor_step
    dsimp only
    rw [hdir, hmask, hsuf]
    simp only [Bool.false_eq_true, if_false, Bool.and_self, if_true]
  refine ⟨commonPref_eq_left_iff topdir ev.path, ?_, ?_⟩
  · intro hne
    rw [hstep, if_pos hne]
    exact ⟨rfl, rfl, rfl⟩
  · intro heq
    rw [hstep, if_neg (by rw [heq]; intro hc; exact hc rfl)]
    rw [heq]
    constructor
    · intro hnot
      rw [if_neg hnot]
    · intro hmem
      rw [if_pos hmem]

/-- C9 (witness): on the fresh session, the qualifying event at
`/other/run2` (outside `/data/run1/`) only appends the warning line,
while the qualifying event at `/data/run1/sub` enqueues the relative
path with the watchdog counter reset. -/
theorem C9_witness :
    (commonPref "/data/run1/" evOut.path = "/data/run1/" ↔
      ("/data/run1/" : String).data <+: evOut.path.data) ∧
    live_monitor_step 10 "/data/run1/" initState evOut =
      { initState with errLog := initState.errLog ++
          ["ERROR: Change of " ++ evOut.path ++ " detected, which is outside "
            ++ "/data/run1/" ++ "."] } ∧
    live_monitor_step 10 "/data/run1/" initState evIn =
      queue_processing 10 { initState with forcedFlushCounter := 0 }
        (ospath_join (evIn.path.drop ("/data/run1/" : String).length)
          evIn.filename) :=
  ⟨(C9_theorem 10 "/data/run1/" initState evOut rfl rfl (by decide)).1,
   ((C9_theorem 10 "/data/run1/" initState evOut rfl rfl (by decide)).2.1
      (by decide)).1,
   ((C9_theorem 10 "/data/run1/" initState evIn rfl rfl (by decide)).2.2
      (by decide)).1 (by decide)⟩

/-! ## Claim C10: a writer failure after deduplication -/

/-- C10: if the writer fan-out stage of a merged batch raises (after
deduplication, before the trailing counter update), the session is
aborted through the fatal-error path (`running` drops to false with the
interruption notice, and the unhandled-error line reaches the error
logger), `readsProcessed` keeps its pre-batch value and `readsQueued`
changes only by the merge-time duplicate drops (none were settled),
`activeBatches` is still decremented by the `finally` clause back to
its pre-batch value, and every `okay` filename of the batch remains in
`filesDone` — the failure is not atomic with respect to `filesDone`
versus the counters. -/
theorem C10_theorem (s : SessionState) (results : List PerFileResult)
    (m : String) (hrun : s.running = true)
    (hnd : (merge_fold s results).2 ≠ []) :
    (run_process_batch_step (WriterOutcome.raises m) s
        (BatchOutcome.results results)).running = false ∧
    (run_process_batch_step (WriterOutcome.raises m) s
        (BatchOutcome.results results)).errLog =
      s.errLog ++ ["ERROR: Unhandled error " ++ m, terminationNotice] ∧
    (run_process_batch_step (WriterOutcome.raises m) s
        (BatchOutcome.results results)).logErrors =
      s.logErrors ++ ["Unhandled error during processing reads"] ∧
    (run_process_batch_step (WriterOutcome.raises m) s
        (BatchOutcome.results results)).readsProcessed = s.readsProcessed ∧
    (run_process_batch_step (WriterOutcome.raises m) s
        (BatchOutcome.results results)).activeBatches = s.activeBatches ∧
    (run_process_batch_step (WriterOutcome.raises m) s
        (BatchOutcome.results results)).readsQueued +
      (run_process_batch_step (WriterOutcome.raises m) s
        (BatchOutcome.results results)).duplicatesCanceled =
      s.readsQueued + s.duplicatesCanceled ∧
    (∀ r ∈ results, r.status = "okay" →
      r.filename ∈ (run_process_batch_step (WriterOutcome.raises m) s
        (BatchOutcome.results results)).filesDone) := by
  have hrp : (merge_fold s results).1.running = true := by
    rw [(merge_fold_frame s results).1]
    exact hrun
  rw [settle_results_raises_running s results m hnd hrp]
  obtain ⟨hrunf, hsf, hPr, hNb, hDs, hJs, hAb, hEl, hLl, hFf, hCs, hLs⟩ :=
    merge_fold_frame s results
  obtain ⟨d, newdone, ⟨hq, hf, hdup, hfd⟩, _, _, hall⟩ :=
    merge_fold_delta s results
  refine ⟨rfl, ?_, ?_, ?_, ?_, ?_, ?_⟩
  · dsimp only
    rw [hEl]
  · dsimp only
    rw [hLl]
  · dsimp only
    exact hPr
  · dsimp only
    omega
  · dsimp only
    omega
  · intro r hr hok
    dsimp only
    rw [hfd]
    exact hall r hr hok

/-- C10 (witness): a writer failure on the merged single-result batch
`[okRes a.fast5]` at state `sC7` stops the session, leaves
`readsProcessed` and `activeBatches` at their pre-batch values, and
keeps `a.fast5` in `filesDone`. -/
theorem C10_witness :
    (run_process_batch_step (WriterOutcome.raises "disk full") sC7
        (BatchOutcome.results [okRes "a.fast5"])).running = false ∧
    (run_process_batch_step (WriterOutcome.raises "disk full") sC7
        (BatchOutcome.results [okRes "a.fast5"])).readsProcessed =
      sC7.readsProcessed ∧
    (run_process_batch_step (WriterOutcome.raises "disk full") sC7
        (BatchOutcome.results [okRes "a.fast5"])).activeBatches =
      sC7.activeBatches ∧
    (okRes "a.fast5").filename ∈
      (run_process_batch_step (WriterOutcome.raises "disk full") sC7
        (BatchOutcome.results [okRes "a.fast5"])).filesDone := by
  obtain ⟨h1, _, _, h4, h5, _, h7⟩ :=
    C10_theorem sC7 [okRes "a.fast5"] "disk full" (by decide) (by decide)
  exact ⟨h1, h4, h5, h7 (okRes "a.fast5") (List.mem_cons_self _ _) rfl⟩
